import Mathlib

/-!
Shallow embedding of the ArcAgent Cloudflare worker
(`cloudflare-worker/src/index.ts`): the WhatsApp webhook handler that
invokes a language model with a tool catalog, dispatches at most one tool
call to the FastAPI backend, maintains per-sender workflow context, and
always acknowledges the inbound transport.

JavaScript values that may be `undefined` are modelled as `Option`;
JS truthiness (`||`, `if (!x)`) is made explicit through `jsTruthy*`
helpers.  Backend `fetch` + `response.json()` is modelled as an oracle
`BackendCall → Except String BackendResult`: `.error` is a thrown
exception (network failure or malformed payload), `.ok` is the parsed
JSON body.  JS numbers are modelled as `Int`; only their truthiness
(zero / non-zero) matters to the embedded control flow.
-/

namespace ArcAgent

/-- JS truthiness of a possibly-undefined string: `undefined` and `""` are falsy. -/
def jsTruthyStr : Option String → Bool
  | none => false
  | some s => decide (s ≠ "")

/-- JS truthiness of a possibly-undefined boolean: only `true` is truthy. -/
def jsTruthyBool : Option Bool → Bool
  | none => false
  | some b => b

/-- JS truthiness of a possibly-undefined number: `undefined` and `0` are falsy. -/
def jsTruthyNum : Option Int → Bool
  | none => false
  | some n => decide (n ≠ 0)

/-- JS `a || b` on possibly-undefined strings (the second operand is returned as-is). -/
def jsOrStr (a b : Option String) : Option String :=
  if jsTruthyStr a then a else b

/-- JS `a || d` where `d` is a concrete (defined) string default. -/
def jsOrStrD (a : Option String) (d : String) : String :=
  if jsTruthyStr a then a.getD d else d

/-- JS `a || d` where `d` is a concrete number default. -/
def jsOrNumD (a : Option Int) (d : Int) : Int :=
  if jsTruthyNum a then a.getD d else d

/-- Replace the first occurrence of `pat` in a character list by `repl`
(the semantics of JS `String.prototype.replace` with a string pattern). -/
def replaceFirstAux (pat repl : List Char) : List Char → List Char
  | [] => []
  | c :: rest =>
    if pat.isPrefixOf (c :: rest) then repl ++ (c :: rest).drop pat.length
    else c :: replaceFirstAux pat repl rest

/-- JS `s.replace(pat, repl)` with a string pattern: only the first
occurrence is replaced; if `pat` does not occur, `s` is returned unchanged. -/
def jsReplaceFirst (s pat repl : String) : String :=
  String.mk (replaceFirstAux pat.data repl.data s.data)

/-- Sender-identity normalization, `const phoneNumber = from.replace(...)`:
strip the `whatsapp:` channel prefix from the raw `From` field. -/
def normalizePhone (fromField : String) : String :=
  jsReplaceFirst fromField "whatsapp:" ""

/-- Does `pat` occur as a contiguous sublist?  (Used to characterise when
`replaceFirstAux` leaves its input unchanged.) -/
def containsPat (pat : List Char) : List Char → Bool
  | [] => pat.isEmpty
  | c :: rest => pat.isPrefixOf (c :: rest) || containsPat pat rest

/-- Per-sender conversation context held in the `userContext` map of the worker. -/
structure Context where
  lastWorkflowId : Option String := none
  lastWorkflowType : Option String := none
deriving DecidableEq, Repr

/-- A tool call returned by the model: its name plus the union of all
argument fields appearing in the tool catalog, each possibly undefined. -/
structure ToolCall where
  name : String
  workflowId : Option String := none
  code : Option String := none
  amount : Option Int := none
  recipient : Option String := none
  limit : Option Int := none
deriving DecidableEq, Repr

/-- The JSON body returned by a backend endpoint (or synthesized locally):
the fields the worker inspects, each possibly absent. -/
structure BackendResult where
  success : Option Bool := none
  workflow_id : Option String := none
  error : Option String := none
deriving DecidableEq, Repr

/-- One HTTP request issued by a dispatch helper against the FastAPI
backend, identified by endpoint and payload. -/
inductive BackendCall where
  | register (phone_number : String)
  | verify (phone_number : String) (workflow_id code : Option String)
  | send (phone_number : String) (amount : Option Int) (recipient : Option String)
  | balance (phone_number : String)
  | transactions (phone_number : String) (limit : Int)
  | confirm (phone_number : String) (workflow_id : String)
  | cancel (phone_number : String) (workflow_id : String)
deriving DecidableEq, Repr

/-- The behaviour of `fetch` + `response.json()` against the backend:
`.error` models a thrown exception (network failure or malformed payload),
`.ok` the parsed JSON body. -/
def BackendOracle : Type := BackendCall → Except String BackendResult

/-- Dispatch helper `registerUser(env, phoneNumber)`: POST /api/register. -/
def registerUser (backend : BackendOracle) (phoneNumber : String) :
    Except String BackendResult :=
  backend (.register phoneNumber)

/-- Dispatch helper `verifyCode(env, phoneNumber, workflowId, code)`: POST /api/workflow/verify-code.
The worker forwards the model-supplied arguments unvalidated, so they may be absent. -/
def verifyCode (backend : BackendOracle) (phoneNumber : String)
    (workflowId code : Option String) : Except String BackendResult :=
  backend (.verify phoneNumber workflowId code)

/-- Dispatch helper `sendMoney(env, phoneNumber, amount, recipient)`: POST /api/payment/send. -/
def sendMoney (backend : BackendOracle) (phoneNumber : String)
    (amount : Option Int) (recipient : Option String) : Except String BackendResult :=
  backend (.send phoneNumber amount recipient)

/-- Dispatch helper `checkBalance(env, phoneNumber)`: GET /api/balance/:phone. -/
def checkBalance (backend : BackendOracle) (phoneNumber : String) :
    Except String BackendResult :=
  backend (.balance phoneNumber)

/-- Dispatch helper `getTransactionHistory(env, phoneNumber, limit)`: GET /api/transactions/:phone?limit=N.
The webhook handler always passes `(args.limit || 10)`, so the default parameter value of 10 declared on the helper is never exercised. -/
def getTransactionHistory (backend : BackendOracle) (phoneNumber : String)
    (limit : Int) : Except String BackendResult :=
  backend (.transactions phoneNumber limit)

/-- Dispatch helper `confirmAction(env, phoneNumber, workflowId)`: POST /api/workflow/confirm. -/
def confirmAction (backend : BackendOracle) (phoneNumber workflowId : String) :
    Except String BackendResult :=
  backend (.confirm phoneNumber workflowId)

/-- Dispatch helper `cancelAction(env, phoneNumber, workflowId)`: POST /api/workflow/cancel. -/
def cancelAction (backend : BackendOracle) (phoneNumber workflowId : String) :
    Except String BackendResult :=
  backend (.cancel phoneNumber workflowId)

/-- Outcome of processing one tool call: the `fnResponse` value, the
(possibly updated) context, and the backend calls issued. -/
structure ToolStep where
  fnResponse : BackendResult
  newContext : Context
  calls : List BackendCall
deriving DecidableEq, Repr

/-- The `try { switch (toolCall.name) ... } catch` block of the webhook
handler: dispatch one tool call, updating the context of the sender.  The
`catch` converts a thrown backend exception into
`{ error: "Tool execution failed: ..." }`; since context mutations in each
case happen only after the corresponding `await` returns, a throw leaves
the context unchanged. -/
def processToolCall (phoneNumber : String) (context : Context) (toolCall : ToolCall)
    (backend : BackendOracle) : ToolStep :=
  if toolCall.name = "registerUser" then
    match registerUser backend phoneNumber with
    | .ok r =>
      if jsTruthyBool r.success && jsTruthyStr r.workflow_id then
        ⟨r, { lastWorkflowId := r.workflow_id, lastWorkflowType := some "registration" },
          [.register phoneNumber]⟩
      else ⟨r, context, [.register phoneNumber]⟩
    | .error e =>
      ⟨{ error := some ("Tool execution failed: " ++ e) }, context, [.register phoneNumber]⟩
  else if toolCall.name = "verifyCode" then
    match verifyCode backend phoneNumber toolCall.workflowId toolCall.code with
    | .ok r => ⟨r, context, [.verify phoneNumber toolCall.workflowId toolCall.code]⟩
    | .error e =>
      ⟨{ error := some ("Tool execution failed: " ++ e) }, context,
        [.verify phoneNumber toolCall.workflowId toolCall.code]⟩
  else if toolCall.name = "sendMoney" then
    match sendMoney backend phoneNumber toolCall.amount toolCall.recipient with
    | .ok r =>
      if jsTruthyBool r.success && jsTruthyStr r.workflow_id then
        ⟨r, { lastWorkflowId := r.workflow_id, lastWorkflowType := some "payment" },
          [.send phoneNumber toolCall.amount toolCall.recipient]⟩
      else ⟨r, context, [.send phoneNumber toolCall.amount toolCall.recipient]⟩
    | .error e =>
      ⟨{ error := some ("Tool execution failed: " ++ e) }, context,
        [.send phoneNumber toolCall.amount toolCall.recipient]⟩
  else if toolCall.name = "checkBalance" then
    match checkBalance backend phoneNumber with
    | .ok r => ⟨r, context, [.balance phoneNumber]⟩
    | .error e =>
      ⟨{ error := some ("Tool execution failed: " ++ e) }, context, [.balance phoneNumber]⟩
  else if toolCall.name = "getTransactionHistory" then
    match getTransactionHistory backend phoneNumber (jsOrNumD toolCall.limit 10) with
    | .ok r => ⟨r, context, [.transactions phoneNumber (jsOrNumD toolCall.limit 10)]⟩
    | .error e =>
      ⟨{ error := some ("Tool execution failed: " ++ e) }, context,
        [.transactions phoneNumber (jsOrNumD toolCall.limit 10)]⟩
  else if toolCall.name = "confirmAction" then
    let confirmWorkflowId := jsOrStr toolCall.workflowId context.lastWorkflowId
    if !jsTruthyStr confirmWorkflowId || decide (context.lastWorkflowType ≠ some "payment") then
      ⟨{ success := some false,
         error := some "No pending payment to confirm. Say \"Send $X to Y\" to start a payment." },
        context, []⟩
    else
      match confirmAction backend phoneNumber (confirmWorkflowId.getD "") with
      | .ok r =>
        ⟨r, { lastWorkflowId := none, lastWorkflowType := none },
          [.confirm phoneNumber (confirmWorkflowId.getD "")]⟩
      | .error e =>
        ⟨{ error := some ("Tool execution failed: " ++ e) }, context,
          [.confirm phoneNumber (confirmWorkflowId.getD "")]⟩
  else if toolCall.name = "cancelAction" then
    let cancelWorkflowId := jsOrStr toolCall.workflowId context.lastWorkflowId
    if !jsTruthyStr cancelWorkflowId || decide (context.lastWorkflowType ≠ some "payment") then
      ⟨{ success := some false, error := some "No pending payment to cancel." }, context, []⟩
    else
      match cancelAction backend phoneNumber (cancelWorkflowId.getD "") with
      | .ok r =>
        ⟨r, { lastWorkflowId := none, lastWorkflowType := none },
          [.cancel phoneNumber (cancelWorkflowId.getD "")]⟩
      | .error e =>
        ⟨{ error := some ("Tool execution failed: " ++ e) }, context,
          [.cancel phoneNumber (cancelWorkflowId.getD "")]⟩
  else
    ⟨{ error := some ("Unknown tool: " ++ toolCall.name) }, context, []⟩

/-- The value returned by one `c.env.AI.run` invocation: optional response
text and a (possibly empty) list of requested tool calls. -/
structure AiResult where
  response : Option String := none
  tool_calls : List ToolCall := []
deriving DecidableEq, Repr

/-- The externally observable side effects of one webhook request:
the `userContext.set` performed (if any), the backend tool calls issued,
the outbound message delivered via POST /api/send-message (if the delivery
fetch succeeded), and how many times `AI.run` was invoked. -/
structure Effects where
  savedContext : Option (String × Context) := none
  backendCalls : List BackendCall := []
  delivered : Option (String × String) := none
  modelInvocations : Nat := 0
deriving DecidableEq, Repr

/-- An HTTP response returned by the worker to the inbound transport. -/
structure HttpResponse where
  status : Nat
  body : String
  contentType : String
deriving DecidableEq, Repr

/-- The fixed TwiML acknowledgment the webhook returns on every path. -/
def twimlAck : HttpResponse :=
  ⟨200, "<?xml version=\"1.0\" encoding=\"UTF-8\"?><Response></Response>", "text/xml"⟩

/-- Fallback final text, used when the model response text is falsy. -/
def fallbackText : String := "I encountered an issue processing your request."

/-- Body of the outer `try` of the webhook route handler.
Oracles: `ai1`/`ai2` are the outcomes of the first and second `AI.run`
invocations, `backend` the behaviour of the backend endpoints, `deliver`
the outcome of the outbound send-message fetch.  Returns the thrown
exception or the HTTP response, paired with the side effects performed
before any throw (the `userContext.set` happens before the second
`AI.run`, so it survives a later throw). -/
def innerHandler (fromField body : Option String) (ctxMap : String → Option Context)
    (ai1 ai2 : Except String AiResult) (backend : BackendOracle)
    (deliver : String → String → Except String Unit) :
    Except String HttpResponse × Effects :=
  match fromField with
  | none => (.error "TypeError: from is null", {})
  | some f =>
    let phoneNumber := normalizePhone f
    let context := (ctxMap phoneNumber).getD {}
    match ai1 with
    | .error e => (.error e, { modelInvocations := 1 })
    | .ok result =>
      match result.tool_calls with
      | [] =>
        let responseText := jsOrStrD result.response fallbackText
        match deliver phoneNumber responseText with
        | .error e => (.error e, { modelInvocations := 1 })
        | .ok _ =>
          (.ok twimlAck, { modelInvocations := 1, delivered := some (phoneNumber, responseText) })
      | toolCall :: _ =>
        let step := processToolCall phoneNumber context toolCall backend
        match ai2 with
        | .error e =>
          (.error e, { savedContext := some (phoneNumber, step.newContext),
                       backendCalls := step.calls, modelInvocations := 2 })
        | .ok result2 =>
          let responseText := jsOrStrD result2.response fallbackText
          match deliver phoneNumber responseText with
          | .error e =>
            (.error e, { savedContext := some (phoneNumber, step.newContext),
                         backendCalls := step.calls, modelInvocations := 2 })
          | .ok _ =>
            (.ok twimlAck, { savedContext := some (phoneNumber, step.newContext),
                             backendCalls := step.calls, modelInvocations := 2,
                             delivered := some (phoneNumber, responseText) })

/-- The full webhook route: the outer `catch` turns any exception into the
same fixed TwiML acknowledgment. -/
def handleWebhook (fromField body : Option String) (ctxMap : String → Option Context)
    (ai1 ai2 : Except String AiResult) (backend : BackendOracle)
    (deliver : String → String → Except String Unit) : HttpResponse × Effects :=
  match innerHandler fromField body ctxMap ai1 ai2 backend deliver with
  | (.ok resp, eff) => (resp, eff)
  | (.error _, eff) => (twimlAck, eff)

/-! ### Theorems -/

/-- C1: Guardrail soundness — whenever the stored `lastWorkflowType` is not
`payment`, or no workflow id resolves (neither an explicit `workflowId`
argument nor `context.lastWorkflowId` is present), a `confirmAction` or
`cancelAction` tool call yields a failure Tool Result (`success: false`) and
issues no backend call at all. -/
theorem guardrail_soundness (phoneNumber : String) (context : Context)
    (toolCall : ToolCall) (backend : BackendOracle)
    (hname : toolCall.name = "confirmAction" ∨ toolCall.name = "cancelAction")
    (hcond : context.lastWorkflowType ≠ some "payment" ∨
      (toolCall.workflowId = none ∧ context.lastWorkflowId = none)) :
    (processToolCall phoneNumber context toolCall backend).fnResponse.success = some false ∧
    (processToolCall phoneNumber context toolCall backend).calls = [] := by
  have hc : jsTruthyStr (jsOrStr toolCall.workflowId context.lastWorkflowId) = false ∨
      ¬context.lastWorkflowType = some "payment" := by
    rcases hcond with h2 | ⟨h3, h4⟩
    · exact Or.inr h2
    · exact Or.inl (by simp [jsOrStr, jsTruthyStr, h3, h4])
  rcases hname with h | h <;>
    · simp [processToolCall, h]
      rw [if_pos hc]
      exact ⟨rfl, rfl⟩

/-- C1 witness: a `confirmAction` call with empty context produces a failure
result and no backend call. -/
theorem guardrail_soundness_witness :
    ((ToolCall.mk "confirmAction" none none none none none).name = "confirmAction" ∨
      (ToolCall.mk "confirmAction" none none none none none).name = "cancelAction") ∧
    ((Context.mk none none).lastWorkflowType ≠ some "payment" ∨
      ((ToolCall.mk "confirmAction" none none none none none).workflowId = none ∧
        (Context.mk none none).lastWorkflowId = none)) ∧
    ((processToolCall "+15551234567" (Context.mk none none)
        (ToolCall.mk "confirmAction" none none none none none)
        (fun _ => .ok {})).fnResponse.success = some false ∧
      (processToolCall "+15551234567" (Context.mk none none)
        (ToolCall.mk "confirmAction" none none none none none)
        (fun _ => .ok {})).calls = []) :=
  ⟨Or.inl rfl, Or.inl (by decide),
    guardrail_soundness "+15551234567" (Context.mk none none)
      (ToolCall.mk "confirmAction" none none none none none)
      (fun _ => .ok {}) (Or.inl rfl) (Or.inl (by decide))⟩

/-- C2: Guardrail consumption — after a guardrail-approved `confirmAction` or
`cancelAction` whose backend call returns (any parsed result `r`, whatever its
`success` flag), the context of the sender has both `lastWorkflowId` and
`lastWorkflowType` absent. -/
theorem guardrail_consumption (phoneNumber : String) (context : Context)
    (toolCall : ToolCall) (backend : BackendOracle) (r : BackendResult)
    (hguard : jsTruthyStr (jsOrStr toolCall.workflowId context.lastWorkflowId) = true)
    (htype : context.lastWorkflowType = some "payment")
    (hcase :
      (toolCall.name = "confirmAction" ∧
        backend (.confirm phoneNumber
          ((jsOrStr toolCall.workflowId context.lastWorkflowId).getD "")) = .ok r) ∨
      (toolCall.name = "cancelAction" ∧
        backend (.cancel phoneNumber
          ((jsOrStr toolCall.workflowId context.lastWorkflowId).getD "")) = .ok r)) :
    (processToolCall phoneNumber context toolCall backend).newContext.lastWorkflowId = none ∧
    (processToolCall phoneNumber context toolCall backend).newContext.lastWorkflowType = none := by
  rcases hcase with ⟨h, hb⟩ | ⟨h, hb⟩ <;>
    simp [processToolCall, h, confirmAction, cancelAction, hguard, htype, hb]

/-- C2 witness: a guardrail-approved confirm whose backend call returns
`{success:false}` still clears the context. -/
theorem guardrail_consumption_witness :
    jsTruthyStr (jsOrStr (ToolCall.mk "confirmAction" none none none none none).workflowId
      (Context.mk (some "pay-55") (some "payment")).lastWorkflowId) = true ∧
    (Context.mk (some "pay-55") (some "payment")).lastWorkflowType = some "payment" ∧
    ((processToolCall "+15551234567" (Context.mk (some "pay-55") (some "payment"))
        (ToolCall.mk "confirmAction" none none none none none)
        (fun _ => .ok (BackendResult.mk (some false) none none))).newContext.lastWorkflowId = none ∧
      (processToolCall "+15551234567" (Context.mk (some "pay-55") (some "payment"))
        (ToolCall.mk "confirmAction" none none none none none)
        (fun _ => .ok (BackendResult.mk (some false) none none))).newContext.lastWorkflowType = none) :=
  ⟨by decide, rfl,
    guardrail_consumption "+15551234567" (Context.mk (some "pay-55") (some "payment"))
      (ToolCall.mk "confirmAction" none none none none none)
      (fun _ => .ok (BackendResult.mk (some false) none none))
      (BackendResult.mk (some false) none none)
      (by decide) rfl (Or.inl ⟨rfl, rfl⟩)⟩

/-- C9: Pending workflow survives a thrown backend call — if a
guardrail-approved `confirmAction` or `cancelAction` backend call throws,
the exception is caught and converted into an error Tool Result, and the
context of the sender (the pending payment marker) is left unchanged. -/
theorem pending_workflow_survives_throw (phoneNumber : String) (context : Context)
    (toolCall : ToolCall) (backend : BackendOracle) (e : String)
    (hguard : jsTruthyStr (jsOrStr toolCall.workflowId context.lastWorkflowId) = true)
    (htype : context.lastWorkflowType = some "payment")
    (hcase :
      (toolCall.name = "confirmAction" ∧
        backend (.confirm phoneNumber
          ((jsOrStr toolCall.workflowId context.lastWorkflowId).getD "")) = .error e) ∨
      (toolCall.name = "cancelAction" ∧
        backend (.cancel phoneNumber
          ((jsOrStr toolCall.workflowId context.lastWorkflowId).getD "")) = .error e)) :
    (processToolCall phoneNumber context toolCall backend).fnResponse =
      { error := some ("Tool execution failed: " ++ e) } ∧
    (processToolCall phoneNumber context toolCall backend).newContext = context := by
  rcases hcase with ⟨h, hb⟩ | ⟨h, hb⟩ <;>
    simp [processToolCall, h, confirmAction, cancelAction, hguard, htype, hb]

/-- C9 witness: a confirm whose backend call throws keeps the pending
payment marker intact and reports the failure as data. -/
theorem pending_workflow_survives_throw_witness :
    jsTruthyStr (jsOrStr (ToolCall.mk "confirmAction" none none none none none).workflowId
      (Context.mk (some "pay-77") (some "payment")).lastWorkflowId) = true ∧
    ((processToolCall "+15551234567" (Context.mk (some "pay-77") (some "payment"))
        (ToolCall.mk "confirmAction" none none none none none)
        (fun _ => .error "NetworkError")).fnResponse =
      { error := some ("Tool execution failed: " ++ "NetworkError") } ∧
      (processToolCall "+15551234567" (Context.mk (some "pay-77") (some "payment"))
        (ToolCall.mk "confirmAction" none none none none none)
        (fun _ => .error "NetworkError")).newContext =
          Context.mk (some "pay-77") (some "payment")) :=
  ⟨by decide,
    pending_workflow_survives_throw "+15551234567"
      (Context.mk (some "pay-77") (some "payment"))
      (ToolCall.mk "confirmAction" none none none none none)
      (fun _ => .error "NetworkError") "NetworkError"
      (by decide) rfl (Or.inl ⟨rfl, rfl⟩)⟩

/-- C10: Falsy history limit is replaced by the default — a
`getTransactionHistory` tool call whose `limit` argument is absent or `0`
issues the backend request with `limit = 10`. -/
theorem history_falsy_limit_default (phoneNumber : String) (context : Context)
    (toolCall : ToolCall) (backend : BackendOracle)
    (hname : toolCall.name = "getTransactionHistory")
    (hlim : toolCall.limit = none ∨ toolCall.limit = some 0) :
    (processToolCall phoneNumber context toolCall backend).calls =
      [.transactions phoneNumber 10] := by
  have h10 : jsOrNumD toolCall.limit 10 = 10 := by
    rcases hlim with h | h <;> simp [jsOrNumD, jsTruthyNum, h]
  cases hb : backend (.transactions phoneNumber 10) <;>
    simp [processToolCall, hname, getTransactionHistory, h10, hb]

/-- C10 witness: an explicit `limit = 0` is replaced by 10 in the issued
backend request. -/
theorem history_falsy_limit_default_witness :
    (ToolCall.mk "getTransactionHistory" none none none none (some 0)).name =
      "getTransactionHistory" ∧
    ((ToolCall.mk "getTransactionHistory" none none none none (some 0)).limit = none ∨
      (ToolCall.mk "getTransactionHistory" none none none none (some 0)).limit = some 0) ∧
    (processToolCall "+15551234567" (Context.mk none none)
      (ToolCall.mk "getTransactionHistory" none none none none (some 0))
      (fun _ => .ok {})).calls = [.transactions "+15551234567" 10] :=
  ⟨rfl, Or.inr rfl,
    history_falsy_limit_default "+15551234567" (Context.mk none none)
      (ToolCall.mk "getTransactionHistory" none none none none (some 0))
      (fun _ => .ok {}) rfl (Or.inr rfl)⟩

/-- C4 counterexample: a `verifyCode` tool call omitting the required `code`
argument is NOT rejected — the backend call is issued anyway, the absent
argument is forwarded, and the result is the response of the backend, not a
synthesized ValidationError. -/
theorem verify_code_missing_arg_dispatches :
    (processToolCall "+15551234567" (Context.mk none none)
      (ToolCall.mk "verifyCode" (some "registration-+15551234567") none none none none)
      (fun _ => .ok (BackendResult.mk (some true) none none))).calls =
      [.verify "+15551234567" (some "registration-+15551234567") none] ∧
    (processToolCall "+15551234567" (Context.mk none none)
      (ToolCall.mk "verifyCode" (some "registration-+15551234567") none none none none)
      (fun _ => .ok (BackendResult.mk (some true) none none))).fnResponse =
      BackendResult.mk (some true) none none := by
  exact ⟨rfl, rfl⟩

/-- C4 amended: no argument validation occurs — every `verifyCode` tool call
is dispatched to the backend exactly once with the model-supplied arguments
forwarded as-is (absent arguments forwarded as absent); no ValidationError
result is ever synthesized. -/
theorem verify_code_forwarded_unvalidated (phoneNumber : String) (context : Context)
    (toolCall : ToolCall) (backend : BackendOracle)
    (hname : toolCall.name = "verifyCode") :
    (processToolCall phoneNumber context toolCall backend).calls =
      [.verify phoneNumber toolCall.workflowId toolCall.code] := by
  cases hb : backend (.verify phoneNumber toolCall.workflowId toolCall.code) <;>
    simp [processToolCall, hname, verifyCode, hb]

/-- C4 amended witness: `verifyCode` with both arguments absent still issues
the backend call. -/
theorem verify_code_forwarded_unvalidated_witness :
    (ToolCall.mk "verifyCode" none none none none none).name = "verifyCode" ∧
    (processToolCall "+15551234567" (Context.mk none none)
      (ToolCall.mk "verifyCode" none none none none none)
      (fun _ => .error "boom")).calls = [.verify "+15551234567" none none] :=
  ⟨rfl,
    verify_code_forwarded_unvalidated "+15551234567" (Context.mk none none)
      (ToolCall.mk "verifyCode" none none none none none)
      (fun _ => .error "boom") rfl⟩

/-- C5 counterexample: when a backend call throws (network failure or
malformed payload), the captured Tool Result is `{error: "Tool execution
failed: ..."}` WITHOUT a `success:false` field — not the claimed
`{success:false, error:"..."}` shape.  (The dispatch helper itself raised;
the exception was caught one level up, at the tool-processing switch.) -/
theorem dispatch_failure_lacks_success_false :
    (processToolCall "+15551234567" (Context.mk none none)
      (ToolCall.mk "checkBalance" none none none none none)
      (fun _ => .error "NetworkError: fetch failed")).fnResponse.success ≠ some false ∧
    (processToolCall "+15551234567" (Context.mk none none)
      (ToolCall.mk "checkBalance" none none none none none)
      (fun _ => .error "NetworkError: fetch failed")).fnResponse =
      BackendResult.mk none none
        (some "Tool execution failed: NetworkError: fetch failed") := by
  exact ⟨by decide, rfl⟩

/-- C5 amended: thrown dispatch failure is data at the tool-processing
boundary — with a backend whose every call throws, any tool call that
actually issues a dispatch yields the Tool Result
`{error: "Tool execution failed: <message>"}` exactly, with no `success`
and no `workflow_id` field; the exception never escapes, and the context of
the sender is always left unchanged. -/
theorem tool_dispatch_failure_is_data (phoneNumber : String) (context : Context)
    (toolCall : ToolCall) (e : String) :
    ((processToolCall phoneNumber context toolCall (fun _ => .error e)).calls ≠ [] →
      (processToolCall phoneNumber context toolCall (fun _ => .error e)).fnResponse =
        BackendResult.mk none none (some ("Tool execution failed: " ++ e))) ∧
    (processToolCall phoneNumber context toolCall (fun _ => .error e)).newContext = context := by
  unfold processToolCall registerUser verifyCode sendMoney checkBalance
    getTransactionHistory confirmAction cancelAction
  repeat'
    first
      | exact ⟨fun _ => rfl, rfl⟩
      | split
      | simp_all

/-- C5 amended witness: a thrown `checkBalance` dispatch produces exactly the
`Tool execution failed` record with no `success` field, context unchanged. -/
theorem tool_dispatch_failure_is_data_witness :
    (processToolCall "+15551234567" (Context.mk none none)
      (ToolCall.mk "checkBalance" none none none none none)
      (fun _ => .error "NetworkError: fetch failed")).calls ≠ [] ∧
    ((processToolCall "+15551234567" (Context.mk none none)
      (ToolCall.mk "checkBalance" none none none none none)
      (fun _ => .error "NetworkError: fetch failed")).fnResponse =
        BackendResult.mk none none
          (some ("Tool execution failed: " ++ "NetworkError: fetch failed")) ∧
      (processToolCall "+15551234567" (Context.mk none none)
        (ToolCall.mk "checkBalance" none none none none none)
        (fun _ => .error "NetworkError: fetch failed")).newContext = Context.mk none none) :=
  ⟨by decide,
    (tool_dispatch_failure_is_data "+15551234567" (Context.mk none none)
      (ToolCall.mk "checkBalance" none none none none none)
      "NetworkError: fetch failed").1 (by decide),
    (tool_dispatch_failure_is_data "+15551234567" (Context.mk none none)
      (ToolCall.mk "checkBalance" none none none none none)
      "NetworkError: fetch failed").2⟩

/-- C7: Workflow-state update — for a `registerUser` or `sendMoney` tool call
whose backend result parses, a result with `success: true` carrying a
non-empty `workflow_id` sets the context to that id with type
`registration`/`payment` respectively, while a result whose `success` or
`workflow_id` is falsy leaves the context unchanged. -/
theorem workflow_state_update (phoneNumber : String) (context : Context)
    (toolCall : ToolCall) (backend : BackendOracle) (r : BackendResult)
    (hcase :
      (toolCall.name = "registerUser" ∧ backend (.register phoneNumber) = .ok r) ∨
      (toolCall.name = "sendMoney" ∧
        backend (.send phoneNumber toolCall.amount toolCall.recipient) = .ok r)) :
    (∀ w : String, r.success = some true → r.workflow_id = some w → w ≠ "" →
      (processToolCall phoneNumber context toolCall backend).newContext =
        Context.mk (some w)
          (some (if toolCall.name = "registerUser" then "registration" else "payment"))) ∧
    ((jsTruthyBool r.success = false ∨ jsTruthyStr r.workflow_id = false) →
      (processToolCall phoneNumber context toolCall backend).newContext = context) := by
  rcases hcase with ⟨h, hb⟩ | ⟨h, hb⟩ <;> constructor
  · intro w hs hw hne
    simp [processToolCall, h, registerUser, hb, hs, hw, jsTruthyBool, jsTruthyStr, hne]
  · intro hfalse
    have hc : (jsTruthyBool r.success && jsTruthyStr r.workflow_id) = false := by
      rcases hfalse with h2 | h2 <;> simp [h2]
    simp [processToolCall, h, registerUser, hb, hc]
  · intro w hs hw hne
    simp [processToolCall, h, sendMoney, hb, hs, hw, jsTruthyBool, jsTruthyStr, hne]
  · intro hfalse
    have hc : (jsTruthyBool r.success && jsTruthyStr r.workflow_id) = false := by
      rcases hfalse with h2 | h2 <;> simp [h2]
    simp [processToolCall, h, sendMoney, hb, hc]

/-- C7 witness: Scenario D — `sendMoney` returning
`{success:true, workflow_id:"pay-77"}` sets the context to
`{lastWorkflowId:"pay-77", lastWorkflowType:"payment"}`. -/
theorem workflow_state_update_witness :
    ((ToolCall.mk "sendMoney" none none (some 20) (some "Alice") none).name = "sendMoney" ∧
      (fun _ : BackendCall => (.ok (BackendResult.mk (some true) (some "pay-77") none) :
          Except String BackendResult))
        (.send "+15551234567" (some 20) (some "Alice")) =
        .ok (BackendResult.mk (some true) (some "pay-77") none)) ∧
    (processToolCall "+15551234567" (Context.mk none none)
      (ToolCall.mk "sendMoney" none none (some 20) (some "Alice") none)
      (fun _ => .ok (BackendResult.mk (some true) (some "pay-77") none))).newContext =
      Context.mk (some "pay-77")
        (some (if (ToolCall.mk "sendMoney" none none (some 20) (some "Alice") none).name =
            "registerUser" then "registration" else "payment")) :=
  ⟨⟨rfl, rfl⟩,
    (workflow_state_update "+15551234567" (Context.mk none none)
      (ToolCall.mk "sendMoney" none none (some 20) (some "Alice") none)
      (fun _ => .ok (BackendResult.mk (some true) (some "pay-77") none))
      (BackendResult.mk (some true) (some "pay-77") none)
      (Or.inr ⟨rfl, rfl⟩)).1 "pay-77" rfl rfl (by decide)⟩

/-- If `pat` does not occur in `s`, JS-style first-occurrence replacement
leaves `s` unchanged. -/
theorem replaceFirstAux_of_not_contains (pat repl s : List Char)
    (h : containsPat pat s = false) : replaceFirstAux pat repl s = s := by
  induction s with
  | nil => rfl
  | cons c rest ih =>
    simp only [containsPat, Bool.or_eq_false_iff] at h
    simp [replaceFirstAux, h.1, ih h.2]

/-- C6 counterexample: normalization is NOT idempotent — JS `replace` with a
string pattern strips only the first occurrence, so normalizing
`whatsapp:whatsapp:+15551234567` twice keeps removing prefixes. -/
theorem normalize_not_idempotent :
    normalizePhone (normalizePhone "whatsapp:whatsapp:+15551234567") ≠
      normalizePhone "whatsapp:whatsapp:+15551234567" := by decide

/-- C6 amended: normalization is total and deterministic (equal raw addresses
yield equal identities), and it is idempotent exactly on those addresses
whose normalization contains no further occurrence of `whatsapp:` — but not
in general, since only the first occurrence is stripped. -/
theorem normalize_deterministic_and_conditionally_idempotent (a b : String)
    (hab : a = b)
    (h : containsPat "whatsapp:".data (normalizePhone a).data = false) :
    normalizePhone a = normalizePhone b ∧
    normalizePhone (normalizePhone a) = normalizePhone a := by
  refine ⟨by rw [hab], ?_⟩
  show jsReplaceFirst (normalizePhone a) "whatsapp:" "" = normalizePhone a
  unfold jsReplaceFirst
  rw [replaceFirstAux_of_not_contains _ _ _ h]

/-- C6 amended witness: a singly-prefixed address normalizes idempotently. -/
theorem normalize_conditionally_idempotent_witness :
    containsPat "whatsapp:".data (normalizePhone "whatsapp:+15551234567").data = false ∧
    (normalizePhone "whatsapp:+15551234567" = normalizePhone "whatsapp:+15551234567" ∧
      normalizePhone (normalizePhone "whatsapp:+15551234567") =
        normalizePhone "whatsapp:+15551234567") :=
  ⟨by decide,
    normalize_deterministic_and_conditionally_idempotent
      "whatsapp:+15551234567" "whatsapp:+15551234567" rfl (by decide)⟩

/-- C8: Acknowledgment invariance — the webhook handler returns the same
fixed HTTP 200 response with the empty-TwiML body for every combination of
inbound fields, stored context, model behaviour (including a throwing model
invocation), backend behaviour, and outbound-delivery behaviour. -/
theorem webhook_ack_invariant (fromField body : Option String)
    (ctxMap : String → Option Context) (ai1 ai2 : Except String AiResult)
    (backend : BackendOracle) (deliver : String → String → Except String Unit) :
    (handleWebhook fromField body ctxMap ai1 ai2 backend deliver).1 = twimlAck := by
  have hok : ∀ resp eff,
      innerHandler fromField body ctxMap ai1 ai2 backend deliver = (.ok resp, eff) →
      resp = twimlAck := by
    intro resp eff h
    unfold innerHandler at h
    rcases fromField with _ | f <;> try simp_all
    rcases ai1 with e1 | r1 <;> try simp_all
    rcases htc : r1.tool_calls with _ | ⟨tc, rest⟩ <;> simp only [htc] at h
    · rcases hd : deliver (normalizePhone f) (jsOrStrD r1.response fallbackText) with e2 | u <;>
        simp_all
    · rcases ai2 with e2 | r2 <;> try simp_all
      rcases hd : deliver (normalizePhone f)
          (jsOrStrD r2.response fallbackText) with e3 | u <;> simp_all
  unfold handleWebhook
  rcases h : innerHandler fromField body ctxMap ai1 ai2 backend deliver with ⟨r, eff⟩
  cases r with
  | error e => rfl
  | ok resp => exact hok resp eff h

/-- The outer catch only changes the HTTP response; it performs no further
side effects of its own. -/
theorem handleWebhook_effects (fromField body : Option String)
    (ctxMap : String → Option Context) (ai1 ai2 : Except String AiResult)
    (backend : BackendOracle) (deliver : String → String → Except String Unit) :
    (handleWebhook fromField body ctxMap ai1 ai2 backend deliver).2 =
      (innerHandler fromField body ctxMap ai1 ai2 backend deliver).2 := by
  unfold handleWebhook
  rcases h : innerHandler fromField body ctxMap ai1 ai2 backend deliver with ⟨r, eff⟩
  cases r <;> rfl

/-- Each tool-call dispatch issues at most one backend call. -/
theorem processToolCall_calls_length (phoneNumber : String) (context : Context)
    (toolCall : ToolCall) (backend : BackendOracle) :
    (processToolCall phoneNumber context toolCall backend).calls.length ≤ 1 := by
  unfold processToolCall registerUser verifyCode sendMoney checkBalance
    getTransactionHistory confirmAction cancelAction
  repeat'
    first
      | split
      | simp

/-- JS `x || d` on strings is never empty when the default is non-empty. -/
theorem jsOrStrD_ne_empty (a : Option String) (d : String) (hd : d ≠ "") :
    jsOrStrD a d ≠ "" := by
  unfold jsOrStrD
  split
  · rename_i h
    cases a with
    | none => simp [jsTruthyStr] at h
    | some s =>
      have hs : s ≠ "" := by simpa [jsTruthyStr] using h
      simpa using hs
  · exact hd

/-- A model behaviour that requests a tool call on every invocation. -/
def aiAlwaysToolCall : AiResult :=
  { response := some "Checking that for you.",
    tool_calls := [ToolCall.mk "checkBalance" none none none none none] }

/-- A backend whose every call succeeds with an empty parsed body. -/
def okBackend : BackendOracle := fun _ => .ok {}

/-- An outbound delivery transport that always succeeds. -/
def okDeliver : String → String → Except String Unit := fun _ _ => .ok ()

/-- C3 counterexample: with a model that requests a tool call on EVERY
invocation, the handler still stops after exactly two model invocations and
one executed tool call — the final model response (which again requested a
tool) is used as final text.  There is no model-invoke/tool-execute cycle
iterating toward a bound of 5: neither "a response with no tool calls
arrived" nor "5 iterations were reached" holds at exit. -/
theorem no_bounded_loop_counterexample :
    aiAlwaysToolCall.tool_calls ≠ [] ∧
    (handleWebhook (some "whatsapp:+15551234567") (some "balance") (fun _ => none)
      (.ok aiAlwaysToolCall) (.ok aiAlwaysToolCall) okBackend
      okDeliver).2.modelInvocations = 2 ∧
    (handleWebhook (some "whatsapp:+15551234567") (some "balance") (fun _ => none)
      (.ok aiAlwaysToolCall) (.ok aiAlwaysToolCall) okBackend
      okDeliver).2.backendCalls = [.balance "+15551234567"] :=
  ⟨by simp [aiAlwaysToolCall], rfl, rfl⟩

/-- C3 amended: for every model, backend, and delivery behaviour, one inbound
request terminates after at most two model invocations, executes at most one
tool call (only the first tool call of the first model response), and any
final text it delivers is non-empty (an empty or absent model response is
replaced by the fixed fallback string). -/
theorem orchestration_single_pass_bounds (fromField body : Option String)
    (ctxMap : String → Option Context) (ai1 ai2 : Except String AiResult)
    (backend : BackendOracle) (deliver : String → String → Except String Unit) :
    (handleWebhook fromField body ctxMap ai1 ai2 backend deliver).2.modelInvocations ≤ 2 ∧
    (handleWebhook fromField body ctxMap ai1 ai2 backend deliver).2.backendCalls.length ≤ 1 ∧
    (∀ p t, (handleWebhook fromField body ctxMap ai1 ai2 backend deliver).2.delivered =
      some (p, t) → t ≠ "") := by
  rw [handleWebhook_effects fromField body ctxMap ai1 ai2 backend deliver]
  unfold innerHandler
  rcases fromField with _ | f
  · exact ⟨by simp, by simp, by intro p t ht; simp at ht⟩
  rcases ai1 with e1 | r1
  · exact ⟨by simp, by simp, by intro p t ht; simp at ht⟩
  rcases htc : r1.tool_calls with _ | ⟨tc, rest⟩ <;> simp only [htc]
  · rcases hd : deliver (normalizePhone f) (jsOrStrD r1.response fallbackText) with e2 | u <;>
      simp only [hd]
    · exact ⟨by simp, by simp, by intro p t ht; simp at ht⟩
    · refine ⟨by simp, by simp, ?_⟩
      intro p t ht
      simp at ht
      rw [← ht.2]
      exact jsOrStrD_ne_empty _ _ (by decide)
  · rcases ai2 with e2 | r2 <;> simp only []
    · exact ⟨by simp,
        by simpa using processToolCall_calls_length (normalizePhone f) _ tc backend,
        by intro p t ht; simp at ht⟩
    rcases hd : deliver (normalizePhone f) (jsOrStrD r2.response fallbackText) with e3 | u <;>
      simp only [hd]
    · exact ⟨by simp,
        by simpa using processToolCall_calls_length (normalizePhone f) _ tc backend,
        by intro p t ht; simp at ht⟩
    · refine ⟨by simp,
        by simpa using processToolCall_calls_length (normalizePhone f) _ tc backend, ?_⟩
      intro p t ht
      simp at ht
      rw [← ht.2]
      exact jsOrStrD_ne_empty _ _ (by decide)

/-- C3 amended witness: a concrete request whose delivered final text is
non-empty. -/
theorem orchestration_single_pass_bounds_witness :
    (handleWebhook (some "whatsapp:+15551234567") (some "hello") (fun _ => none)
      (.ok (AiResult.mk (some "Hi there!") [])) (.ok (AiResult.mk none []))
      okBackend okDeliver).2.delivered = some ("+15551234567", "Hi there!") ∧
    "Hi there!" ≠ "" :=
  ⟨rfl,
    (orchestration_single_pass_bounds (some "whatsapp:+15551234567") (some "hello")
      (fun _ => none) (.ok (AiResult.mk (some "Hi there!") [])) (.ok (AiResult.mk none []))
      okBackend okDeliver).2.2 "+15551234567" "Hi there!" rfl⟩

end ArcAgent
